import Mathlib

/-!
Verification of the scenarious graph-building engine (`scenario.py`):
a shallow embedding of the `Scenario` class — its object store, id
allocator, reference resolver, definition-tree processor and loading
orchestrator — together with theorems settling the frozen claims.
-/

namespace Scenarious

/-- Python ids as they occur as object-store keys: ints or strings. -/
inductive PyId where
| int (n : Nat)
| str (s : String)
deriving DecidableEq

/-- Python values as the engine sees them: scalars, lists, dicts (ordered
association lists, as python dicts preserve insertion order) and constructed
domain objects (whose named attributes `getattr` can read). -/
inductive Val where
| int (n : Nat)
| str (s : String)
| list (xs : List Val)
| dict (fs : List (String × Val))
| obj (fs : List (String × Val))

/-- The exception classes the engine distinguishes: `TypeHandlerException`,
`ScenariousException`, `ReferenceException`, and any other python exception
(`KeyError`, `AttributeError`, `TypeError`, ...) which the engine only ever
meets through `except Exception`. `outOfFuel` is a modelling artifact marking
non-termination; it is no python exception and is never caught. -/
inductive Err where
| typeHandler (m : String)
| scenarious (m : String)
| reference (m : String)
| pyErr (m : String)
| outOfFuel

/-- Observable engine actions, recorded in order: `_load_type_definition`
passing its not-yet-loaded guard, a `_load_type` call, the constructor call
`handler.create(**resolved)`, a store into the object map, and a deferred
special-method invocation. -/
inductive Event where
| beginLoad (t : String)
| loadTypeCall (t : String) (d : Val)
| createCall (t : String) (d : Val)
| storeObj (t : String) (i : PyId)
| methodCall (m : String) (ps : List Val)

/-- Association-list lookup (python `dict.get` / `dict[k]` on ordered dicts). -/
def alistLookup [DecidableEq α] : List (α × β) → α → Option β
| [], _ => none
| (k', v') :: rest, k => if k = k' then some v' else alistLookup rest k

/-- Association-list write (python `d[k] = v`): an existing key keeps its
position, a new key is appended, matching python dict insertion order. -/
def alistInsert [DecidableEq α] : List (α × β) → α → β → List (α × β)
| [], k, v => [(k, v)]
| (k', v') :: rest, k, v =>
  if k = k' then (k, v) :: rest else (k', v') :: alistInsert rest k v

/-- Association-list removal returning the removed value (python `d.pop(k)`),
`none` when the key is absent (python raises `KeyError`). -/
def alistPop [DecidableEq α] : List (α × β) → α → Option (β × List (α × β))
| [], _ => none
| (k', v') :: rest, k =>
  if k = k' then some (v', rest)
  else match alistPop rest k with
  | none => none
  | some (v, rest') => some (v, (k', v') :: rest')

/-- A type handler's capability contract: the construction entry point
(`create(**fields)`), the deferred-method predicate (`is_method`), the
deferred-method accessor (`get_special_method`, modelled as a method name)
and the invocation of such a method. -/
structure TypeHandler where
  create : List (String × Val) → Except Err Val
  is_method : String → Bool
  getSpecialMethod : String → String
  runMethod : String → List Val → Except Err Unit

/-- The injected reference-syntax handler: `is_reference(value)` and
`parse(value) -> (type_name, id, attribute chain)`. -/
structure RefHandler where
  is_reference : Val → Bool
  parse : Val → Except Err (String × PyId × List String)

/-- The immutable configuration of a `Scenario`: `_raw_data`,
`_type_handlers` (keyed by `__type_name__`) and `_ref_handler`. -/
structure ScenarioEnv where
  rawData : List (String × Val)
  typeHandlers : List (String × TypeHandler)
  refHandler : RefHandler

/-- The mutable state of a `Scenario`: `_objects` (a `defaultdict(dict)`
mapping type name to id-keyed object map) and `_objects_id_counter`
(a `defaultdict(lambda: 1)`), plus the trace of observable actions. -/
structure ScenarioState where
  objects : List (String × List (PyId × Val))
  counters : List (String × Nat)
  trace : List Event

/-- `type_name in self._objects` — membership does not create an entry. -/
def hasType (st : ScenarioState) (t : String) : Bool :=
  (alistLookup st.objects t).isSome

/-- The current id-keyed map for a type (empty when absent, as a
`defaultdict(dict)` access would produce). -/
def getObjs (st : ScenarioState) (t : String) : List (PyId × Val) :=
  (alistLookup st.objects t).getD []

/-- A `self._objects[type_name]` access on a `defaultdict` creates an empty
entry for a missing key. -/
def touchObjs (st : ScenarioState) (t : String) : ScenarioState :=
  if hasType st t then st else { st with objects := st.objects ++ [(t, [])] }

def setObjs (st : ScenarioState) (t : String) (coll : List (PyId × Val)) :
    ScenarioState :=
  { st with objects := alistInsert st.objects t coll }

/-- The current id counter for a type; `defaultdict(lambda: 1)` yields 1 for
a missing key. -/
def counterOf (st : ScenarioState) (t : String) : Nat :=
  (alistLookup st.counters t).getD 1

/-- A `self._objects_id_counter[type_name]` access creates the default entry. -/
def touchCounter (st : ScenarioState) (t : String) : ScenarioState :=
  if (alistLookup st.counters t).isSome then st
  else { st with counters := st.counters ++ [(t, 1)] }

def setCounter (st : ScenarioState) (t : String) (n : Nat) : ScenarioState :=
  { st with counters := alistInsert st.counters t n }

def addTrace (st : ScenarioState) (e : Event) : ScenarioState :=
  { st with trace := st.trace ++ [e] }

/-- Python truthiness of an optional explicit id (`not ref_id` with `None`,
`0` and `""` falsy). -/
def pyFalsyId : Option PyId → Bool
| none => true
| some (.int 0) => true
| some (.str "") => true
| _ => false

/-- Python truthiness of a raw definition value (`type_def or ...`). -/
def pyTruthyVal : Val → Bool
| .int 0 => false
| .str "" => false
| .list [] => false
| .dict [] => false
| _ => true

/-- `type(...)` as it is formatted into the malformed-definition message. -/
def pyTypeName : Val → String
| .int _ => "int"
| .str _ => "str"
| .list _ => "list"
| .dict _ => "dict"
| .obj _ => "instance"

/-- `_get_type_name`: `name.rstrip('s')` — strips every trailing `'s'`. -/
def getTypeName (name : String) : String :=
  String.mk ((name.toList.reverse.dropWhile (fun c => c = 's')).reverse)

/-- `_get_type_handler`: try the name, then the name with trailing `'s'`
stripped; raise `ScenariousException` when neither is registered. -/
def getTypeHandler (env : ScenarioEnv) (name : String) : Except Err TypeHandler :=
  match alistLookup env.typeHandlers name with
  | some h => .ok h
  | none =>
    match alistLookup env.typeHandlers (getTypeName name) with
    | some h => .ok h
    | none => .error (.scenarious ("Invalid type name " ++ name))

/-- `_relocate_object`: pop the occupant of `obj_id`, compute
`new_id = self._objects_id_counter[type_name] + 1` (without checking
occupancy and without writing the counter back) and store the occupant
under `new_id`. -/
def relocateObject (st : ScenarioState) (objId : PyId) (t : String) :
    Except Err ScenarioState :=
  let st := touchObjs st t
  match alistPop (getObjs st t) objId with
  | none => .error (.pyErr "KeyError: pop")
  | some (prev, coll') =>
    let st := touchCounter st t
    let newId := counterOf st t + 1
    .ok (setObjs st t (alistInsert coll' (.int newId) prev))

/-- The `while self._objects_id_counter[type_name] in self._objects[type_name]`
loop of `_generate_id`, with enough fuel to pass every occupied slot. -/
def genFromAux (occ : List PyId) : Nat → Nat → Nat
| c, 0 => c
| c, fuel+1 => if PyId.int c ∈ occ then genFromAux occ (c+1) fuel else c

def genFrom (occ : List PyId) (c : Nat) : Nat :=
  genFromAux occ c (occ.length + 1)

def listKeys (l : List (PyId × Val)) : List PyId := l.map Prod.fst

/-- `_generate_id`: advance the type's counter past occupied ids one step at
a time and return (and persist) the first free value. -/
def generateId (st : ScenarioState) (t : String) : Nat × ScenarioState :=
  let st := touchObjs st t
  let st := touchCounter st t
  let r := genFrom (listKeys (getObjs st t)) (counterOf st t)
  (r, setCounter st t r)

/-- `_add_object`: an explicit id that is occupied relocates the occupant
first and then takes the slot; a falsy id (absent, `0`, `""`) takes a
generated id; any other explicit id is used as given. -/
def addObject (st : ScenarioState) (obj : Val) (t : String)
    (refId : Option PyId) : Except Err ScenarioState :=
  let st := touchObjs st t
  let coll := getObjs st t
  match refId with
  | some i =>
    if i ∈ listKeys coll then
      match relocateObject st i t with
      | .error e => .error e
      | .ok st =>
        let st := setObjs st t (alistInsert (getObjs st t) i obj)
        .ok (addTrace st (.storeObj t i))
    else if pyFalsyId (some i) then
      let (r, st) := generateId st t
      let st := setObjs st t (alistInsert (getObjs st t) (.int r) obj)
      .ok (addTrace st (.storeObj t (.int r)))
    else
      let st := setObjs st t (alistInsert (getObjs st t) i obj)
      .ok (addTrace st (.storeObj t i))
  | none =>
    let (r, st) := generateId st t
    let st := setObjs st t (alistInsert (getObjs st t) (.int r) obj)
    .ok (addTrace st (.storeObj t (.int r)))

/-- An `id` field value used as an object-store key. Container-valued ids
(unhashable in python) are not modelled. -/
def valToPyId : Val → Option PyId
| .int n => some (.int n)
| .str s => some (.str s)
| _ => none

/-- `data.pop(self.ID, None)`: only a dict supports it (any other value
raises in python before the definition is processed). -/
def popId (data : Val) : Except Err (Option PyId × Val) :=
  match data with
  | .dict fs =>
    match alistPop fs "id" with
    | none => .ok (none, .dict fs)
    | some (v, fs') =>
      match valToPyId v with
      | some i => .ok (some i, .dict fs')
      | none => .error (.pyErr "TypeError: unhashable id")
  | _ => .error (.pyErr "AttributeError: pop")

/-- `getattr(value, attr)`: read a named attribute of a constructed object;
anything else raises `AttributeError` (caught as a generic exception). -/
def pyGetAttr (v : Val) (a : String) : Except Err Val :=
  match v with
  | .obj fs =>
    match alistLookup fs a with
    | some x => .ok x
    | none => .error (.pyErr ("AttributeError: " ++ a))
  | _ => .error (.pyErr ("AttributeError: " ++ a))

/-- The `for attr in ref_attrs: value = getattr(value, attr)` chain. -/
def walkAttrs : Val → List String → Except Err Val
| v, [] => .ok v
| v, a :: rest =>
  match pyGetAttr v a with
  | .ok v' => walkAttrs v' rest
  | .error e => .error e

/-- The shape of the lazy-load callback `self._load_type_definition(type)`
that reference resolution may re-enter. -/
abbrev LoadFn := ScenarioState → String → Except Err ScenarioState

/-- `_resolve_reference`: parse the token, lazily load the referenced type
when its collection is absent, fetch `self._objects[ref_key_type][ref_key_id]`
(the outer defaultdict access creates the entry) and chase the attributes. -/
def resolveReferenceWith (ltdf : LoadFn) (env : ScenarioEnv)
    (st : ScenarioState) (ref : Val) : Except Err (Val × ScenarioState) := do
  let (t, i, attrs) ← env.refHandler.parse ref
  let st ← if hasType st t then pure st else ltdf st t
  let st := touchObjs st t
  match alistLookup (getObjs st t) i with
  | none => .error (.pyErr "KeyError: ref id")
  | some v => do
    let r ← walkAttrs v attrs
    return (r, st)

/-- The shape of the recursive call on a nested definition value inside the
definition-tree walk. -/
abbrev ProcessFn :=
  Val → List (String × Val) → ScenarioState →
    Except Err (Val × List (String × Val) × ScenarioState)

/-- The list comprehension over a list-valued field, preserving order; each
element goes through the full definition-tree walk `prf`. -/
def processElemsGeneric (prf : ProcessFn) :
    List Val → List (String × Val) → ScenarioState →
    Except Err (List Val × List (String × Val) × ScenarioState)
| [], sm, st => return ([], sm, st)
| e :: rest, sm, st => do
  let (r, sm, st) ← prf e sm st
  let (rs, sm, st) ← processElemsGeneric prf rest sm st
  return (r :: rs, sm, st)

/-- The `for k, v in obj_def.items()` loop of
`_process_references_and_methods`: a deferred method records
`(get_special_method(k), raw v)` into the shared list (without touching the
copied definition); a dict or list value recurses through `prf`; a reference
resolves through `rrf`; a scalar passes through. -/
def processFieldsGeneric (prf : ProcessFn)
    (rrf : Val → ScenarioState → Except Err (Val × ScenarioState))
    (env : ScenarioEnv) (t : String) (resolved : List (String × Val)) :
    List (String × Val) → List (String × Val) → ScenarioState →
    Except Err (List (String × Val) × List (String × Val) × ScenarioState)
| [], sm, st => return (resolved, sm, st)
| (k, v) :: rest, sm, st => do
  let h ← getTypeHandler env t
  if h.is_method k then
    processFieldsGeneric prf rrf env t resolved rest
      (sm ++ [(h.getSpecialMethod k, v)]) st
  else match v with
    | .dict fs => do
      let (rv, sm, st) ← prf (.dict fs) sm st
      processFieldsGeneric prf rrf env t (alistInsert resolved k rv) rest sm st
    | .list es => do
      let (rs, sm, st) ← processElemsGeneric prf es sm st
      processFieldsGeneric prf rrf env t (alistInsert resolved k (.list rs))
        rest sm st
    | v' =>
      if env.refHandler.is_reference v' then do
        let (rv, st) ← rrf v' st
        processFieldsGeneric prf rrf env t (alistInsert resolved k rv) rest sm st
      else processFieldsGeneric prf rrf env t resolved rest sm st

/-- `_process_references_and_methods`: a non-dict definition is resolved when
it is a reference token and passed through otherwise; a dict is copied and
walked key by key. The fuel bounds the nesting depth of the definition tree
(python recursion is bounded by the same depth). -/
def processRefsWith (ltdf : LoadFn) (env : ScenarioEnv) (t : String) :
    Nat → Val → List (String × Val) → ScenarioState →
    Except Err (Val × List (String × Val) × ScenarioState)
| 0, _, _, _ => .error .outOfFuel
| fuel+1, objDef, sm, st =>
  match objDef with
  | .dict fs => do
    let (resolved, sm, st) ←
      processFieldsGeneric
        (fun v sm st => processRefsWith ltdf env t fuel v sm st)
        (fun v st => resolveReferenceWith ltdf env st v)
        env t fs fs sm st
    return (.dict resolved, sm, st)
  | v =>
    if env.refHandler.is_reference v then do
      let (r, st) ← resolveReferenceWith ltdf env st v
      return (r, sm, st)
    else return (v, sm, st)

/-- `_create_obj`: fetch the handler, pop the optional explicit id, process
the definition, call `handler.create(**resolved)` and store the result.
Returns the new object and the deferred invocations collected for it. -/
def createObjWith (ltdf : LoadFn) (env : ScenarioEnv) (fuel : Nat)
    (t : String) (data : Val) (st : ScenarioState) :
    Except Err (Val × List (String × Val) × ScenarioState) := do
  let h ← getTypeHandler env t
  let (refId, data') ← popId data
  let (resolvedDef, sm, st) ← processRefsWith ltdf env t fuel data' [] st
  let st := addTrace st (.createCall t resolvedDef)
  let fs ← match resolvedDef with
    | .dict fs => pure fs
    | _ => .error (.pyErr "TypeError: kwargs")
  let newObj ← h.create fs
  let st ← addObject st newObj t refId
  return (newObj, sm, st)

/-- The replay loop of `_load_type`: each deferred invocation is called with
the new object first; a string argument is resolved at replay time when it is
a reference, a list argument is splatted, anything else is passed as is. -/
def replayMethodsWith (ltdf : LoadFn) (env : ScenarioEnv) (t : String)
    (newObj : Val) : List (String × Val) → ScenarioState →
    Except Err ScenarioState
| [], st => return st
| (m, param) :: rest, st => do
  let (params, st) ←
    match param with
    | .str s =>
      if env.refHandler.is_reference (.str s) then do
        let (r, st) ← resolveReferenceWith ltdf env st (.str s)
        pure ([newObj, r], st)
      else pure ([newObj, .str s], st)
    | .list es => pure (([newObj] ++ es : List Val), st)
    | p => pure ([newObj, p], st)
  let h ← getTypeHandler env t
  let st := addTrace st (.methodCall m params)
  let _ ← h.runMethod m params
  replayMethodsWith ltdf env t newObj rest st

/-- The body of `_load_type` before its `except` clauses: build the object
and replay its deferred invocations. -/
def loadTypeBodyWith (ltdf : LoadFn) (env : ScenarioEnv) (fuel : Nat)
    (t : String) (d : Val) (st : ScenarioState) : Except Err ScenarioState := do
  let st := addTrace st (.loadTypeCall t d)
  let (newObj, sm, st) ← createObjWith ltdf env fuel t d st
  replayMethodsWith ltdf env t newObj sm st

/-- The `except` ladder of `_load_type`: `TypeHandlerException` and
`ScenariousException` are re-raised unchanged, `ReferenceException` is
re-raised wrapped with the type name, any other exception becomes a
`ScenariousException` with the same context. -/
def wrapLoadErr (t : String) : Err → Err
| .typeHandler m => .typeHandler m
| .scenarious m => .scenarious m
| .reference m => .reference ("Error loading type " ++ t ++ ". Detail: " ++ m)
| .pyErr m => .scenarious ("Error loading type " ++ t ++ ". Detail: " ++ m)
| .outOfFuel => .outOfFuel

/-- `_load_type` with its error wrapping. -/
def loadTypeWith (ltdf : LoadFn) (env : ScenarioEnv) (fuel : Nat) (t : String)
    (d : Val) (st : ScenarioState) : Except Err ScenarioState :=
  match loadTypeBodyWith ltdf env fuel t d st with
  | .ok st => .ok st
  | .error e => .error (wrapLoadErr t e)

/-- `for data in type_def: self._load_type(type_name, data)`. -/
def loadListWith (ltdf : LoadFn) (env : ScenarioEnv) (fuel : Nat) (t : String) :
    List Val → ScenarioState → Except Err ScenarioState
| [], st => return st
| d :: rest, st => do
  loadListWith ltdf env fuel t rest (← loadTypeWith ltdf env fuel t d st)

/-- `for _ in range(type_def): self._load_type(type_name, {})`. -/
def loadCountWith (ltdf : LoadFn) (env : ScenarioEnv) (fuel : Nat) (t : String) :
    Nat → ScenarioState → Except Err ScenarioState
| 0, st => return st
| n+1, st => do
  loadCountWith ltdf env fuel t n (← loadTypeWith ltdf env fuel t (.dict []) st)

/-- `self._raw_data.get(type_name, self._raw_data[type_name + "s"])`:
python evaluates the default argument eagerly, so the plural key is
dereferenced (and may raise `KeyError`) before the exact-name lookup
is consulted. -/
def rawLookupDefinition (env : ScenarioEnv) (t : String) : Except Err Val :=
  match alistLookup env.rawData (t ++ "s") with
  | none => .error (.pyErr ("KeyError: " ++ t ++ "s"))
  | some dflt => .ok ((alistLookup env.rawData t).getD dflt)

/-- `_load_type_definition`: a falsy (or absent) definition is re-fetched
from the raw data; a type with no collection yet dispatches on the
definition's shape (list, dict, int, otherwise a fatal engine error);
a type that already has a collection is skipped. Fuel bounds the re-entrant
lazy loading triggered from reference resolution. -/
def loadTypeDefinition (env : ScenarioEnv) :
    Nat → ScenarioState → String → Option Val → Except Err ScenarioState
| 0, _, _, _ => .error .outOfFuel
| fuel+1, st, t, d => do
  let tDef ←
    match d with
    | some v => if pyTruthyVal v then pure v else rawLookupDefinition env t
    | none => rawLookupDefinition env t
  if hasType st t then return st
  else
    let st := addTrace st (.beginLoad t)
    let ltdf : LoadFn := fun st t => loadTypeDefinition env fuel st t none
    match tDef with
    | .list ds => loadListWith ltdf env (fuel+1) t ds st
    | .dict fs => loadTypeWith ltdf env (fuel+1) t (.dict fs) st
    | .int n => loadCountWith ltdf env (fuel+1) t n st
    | v =>
      .error (.scenarious ("Type definition " ++ t ++
        " must be a list, dict or int. Got " ++ pyTypeName v ++ " instead"))

/-- `by_id`: singularize the type name; a missing type raises `KeyError`,
a missing id yields `None` via `dict.get`. -/
def byId (st : ScenarioState) (typeName : String) (refId : PyId) :
    Except Err (Option Val) :=
  let t := getTypeName typeName
  if hasType st t then .ok (alistLookup (getObjs st t) refId)
  else .error (.pyErr ("KeyError: Scenario doesnt have elements of type " ++ t))

/-- `key.startswith('add_')`. -/
def startsWithAdd (s : String) : Bool :=
  match s.toList with
  | 'a' :: 'd' :: 'd' :: '_' :: _ => true
  | _ => false

/-- `key.replace('add_', '')`: every occurrence of `add_` is removed
(python replaces left to right, non-overlapping). -/
def stripAddOccurrences : List Char → List Char
| 'a' :: 'd' :: 'd' :: '_' :: rest => stripAddOccurrences rest
| c :: rest => c :: stripAddOccurrences rest
| [] => []

def stripAdd (s : String) : String := String.mk (stripAddOccurrences s.toList)

/-- What `__getattr__` hands back: a type's current object collection, or
the `partial(self._create_obj, type_name)` adder. -/
inductive AttrResult where
| coll (vs : List Val)
| adder (typeName : String)

/-- `__getattr__`: an `add_`-prefixed key yields an adder for a known type
(`ScenariousException` otherwise); any other key reads the collection of the
singularized type (`AttributeError` otherwise). -/
def scenarioGetAttr (st : ScenarioState) (key : String) :
    Except Err AttrResult :=
  if startsWithAdd key then
    let tn := stripAdd key
    if hasType st (getTypeName tn) then .ok (.adder tn)
    else .error (.scenarious ("Invalid type name " ++ tn))
  else
    let t := getTypeName key
    if hasType st t then .ok (.coll ((getObjs st t).map Prod.snd))
    else .error (.pyErr ("AttributeError: Scenario doesnt have type " ++ t))

/-- Invoking `scenario.add_<type>(**data)`: the adder obtained from
`__getattr__` runs `_create_obj` with a fresh deferred-invocation list
that is dropped afterwards (this path never replays deferred methods). -/
def scenarioAddCall (fuel : Nat) (env : ScenarioEnv) (st : ScenarioState)
    (key : String) (data : Val) : Except Err (Val × ScenarioState) := do
  match scenarioGetAttr st key with
  | .ok (.adder tn) => do
    let (obj, _, st) ←
      createObjWith (fun st t => loadTypeDefinition env fuel st t none)
        env fuel tn data st
    return (obj, st)
  | .ok (.coll _) => .error (.pyErr "TypeError: not callable")
  | .error e => .error e

def initialState : ScenarioState := { objects := [], counters := [], trace := [] }

/-- The load-priority pass of `__init__`. -/
def loadPriorityWith (env : ScenarioEnv) (fuel : Nat) :
    List String → ScenarioState → Except Err ScenarioState
| [], st => return st
| t :: rest, st => do
  loadPriorityWith env fuel rest
    (← loadTypeDefinition env fuel st (getTypeName t) none)

/-- The main pass of `__init__` over `self._raw_data.iteritems()`, skipping
types named in the load-priority list. -/
def loadRemainingWith (env : ScenarioEnv) (fuel : Nat) (lp : List String) :
    List (String × Val) → ScenarioState → Except Err ScenarioState
| [], st => return st
| (t, d) :: rest, st =>
  if t ∈ lp then loadRemainingWith env fuel lp rest st
  else do
    loadRemainingWith env fuel lp rest
      (← loadTypeDefinition env fuel st (getTypeName t) (some d))

/-- `Scenario.__init__`: empty store and counters, then the two load passes. -/
def scenarioInit (fuel : Nat) (env : ScenarioEnv) (loadPriority : List String) :
    Except Err ScenarioState := do
  let st ← loadPriorityWith env fuel loadPriority initialState
  loadRemainingWith env fuel loadPriority env.rawData st

/-- The trace of a finished (or failed) run. -/
def traceOf (r : Except Err ScenarioState) : List Event :=
  match r with
  | .ok st => st.trace
  | .error _ => []

/-- How often a given type passed the not-yet-loaded guard of
`_load_type_definition`. -/
def countBeginLoad (tr : List Event) (t : String) : Nat :=
  (tr.filter (fun e => match e with
    | .beginLoad t' => t' = t
    | _ => false)).length

/-! ### Concrete collaborator instances used to exercise the engine

The type handlers and the reference handler are external collaborators: the
engine only sees them through their capability contracts, so the theorems
instantiate them with minimal concrete implementations. -/

/-- A reference handler that recognizes nothing. -/
def nullRefHandler : RefHandler :=
  { is_reference := fun _ => false
    parse := fun _ => .error (.reference "invalid reference") }

/-- A type handler whose constructor turns the named fields into the
object's attributes and that declares no deferred methods. -/
def simpleHandler : TypeHandler :=
  { create := fun fs => .ok (.obj fs)
    is_method := fun _ => false
    getSpecialMethod := fun k => k
    runMethod := fun _ _ => .ok () }

/-- A type handler that declares the field `attach` as a deferred method. -/
def attachHandler : TypeHandler :=
  { create := fun fs => .ok (.obj fs)
    is_method := fun k => k = "attach"
    getSpecialMethod := fun k => k
    runMethod := fun _ _ => .ok () }

/-- A reference handler for the two tokens `$team_1` and `$foo_1` /
`$bar_1` / `$users_1` used in the concrete scenarios. -/
def tokenRefHandler : RefHandler :=
  { is_reference := fun v =>
      match v with
      | .str s => s = "$team_1" || s = "$foo_1" || s = "$bar_1" || s = "$users_1"
      | _ => false
    parse := fun v =>
      match v with
      | .str "$team_1" => .ok ("team", .int 1, [])
      | .str "$foo_1" => .ok ("foo", .int 1, [])
      | .str "$bar_1" => .ok ("bar", .int 1, [])
      | .str "$users_1" => .ok ("users", .int 1, [])
      | _ => .error (.reference "invalid reference") }

/-- C1 scenario: three `user` definitions where the third's explicit id `1`
collides with the first object while id `2` is already taken. -/
def envC1 : ScenarioEnv :=
  { rawData := [("users", .list
      [.dict [("name", .str "a")],
       .dict [("name", .str "b"), ("id", .int 2)],
       .dict [("name", .str "c"), ("id", .int 1)]])]
    typeHandlers := [("user", simpleHandler)]
    refHandler := nullRefHandler }

/-- C2 scenario: a `widget` definition with deferred-method field
`attach: "$team_1"` and a lazily loaded `team`. -/
def envC2 : ScenarioEnv :=
  { rawData :=
      [("widgets", .list [.dict [("name", .str "w"), ("attach", .str "$team_1")]]),
       ("teams", .list [.dict [("tname", .str "T")]])]
    typeHandlers := [("widget", attachHandler), ("team", simpleHandler)]
    refHandler := tokenRefHandler }

/-- C3 scenario: `foo`'s only object references `$bar_1`, and `bar`'s second
object references `$foo_1` back while `foo` is still materializing its first
object, forcing a re-entrant lazy load of `foo`. -/
def envC3 : ScenarioEnv :=
  { rawData :=
      [("foos", .list [.dict [("x", .str "$bar_1")]]),
       ("bars", .list [.dict [], .dict [("z", .str "$foo_1")]])]
    typeHandlers := [("foo", simpleHandler), ("bar", simpleHandler)]
    refHandler := tokenRefHandler }

/-- C5 environment: one `user` type handler, loading by an explicit count. -/
def envC5 : ScenarioEnv :=
  { rawData := []
    typeHandlers := [("user", simpleHandler)]
    refHandler := nullRefHandler }

/-- C5 counterexample scenario: the type `thing` is declared with the falsy
non-int definition `""` under its singular name only. -/
def envC5falsy : ScenarioEnv :=
  { rawData := [("thing", .str "")]
    typeHandlers := [("thing", simpleHandler)]
    refHandler := nullRefHandler }

/-- C5 counterexample scenario: the count-0 type `user` declared under its
singular name only. -/
def envC5zero : ScenarioEnv :=
  { rawData := [("user", .int 0)]
    typeHandlers := [("user", simpleHandler)]
    refHandler := nullRefHandler }

/-- C8 scenario: a normally loaded `user` collection (store key `user`) next
to a collection stored under the plural key `users` created through
`add_users`. -/
def envC8 : ScenarioEnv :=
  { rawData := [("users", .list [.dict [("name", .str "a")]])]
    typeHandlers := [("user", simpleHandler)]
    refHandler := tokenRefHandler }

/-- The environment with no registered type handlers. -/
def envEmpty : ScenarioEnv :=
  { rawData := [], typeHandlers := [], refHandler := nullRefHandler }

/-- A lazy-load callback that loads nothing (never consulted in the runs it
is passed to). -/
def ltdfNull : LoadFn := fun st _ => .ok st

/-- The state reached by loading `envC8` and then calling
`scenario.add_users(name="b")`. -/
def c8Setup : Except Err ScenarioState := do
  let st ← scenarioInit 3 envC8 []
  let (_, st) ← scenarioAddCall 3 envC8 st "add_users" (.dict [("name", .str "b")])
  return st

/-- Resolving the token `$users_1` through the core on the C8 state. -/
def c8Resolve : Except Err Val := do
  let st ← c8Setup
  let (v, _) ← resolveReferenceWith
    (fun st t => loadTypeDefinition envC8 3 st t none) envC8 st (.str "$users_1")
  return v

/-- Fetching `(users, 1)` through `by_id` on the C8 state. -/
def c8Fetch : Except Err (Option Val) := do
  byId (← c8Setup) "users" (.int 1)

/-- The objects `1 .. n`, each constructed by `simpleHandler` from the empty
definition. -/
def idRangeObjs (n : Nat) : List (PyId × Val) :=
  (List.range n).map (fun i => (PyId.int (i+1), Val.obj []))

/-- The events of the i-th count-load iteration of C5. -/
def c5IterEvents (i : Nat) : List Event :=
  [.loadTypeCall "user" (.dict []), .createCall "user" (.dict []),
   .storeObj "user" (.int i)]

/-- The events of count-load iterations `k+1 .. k+n` of C5. -/
def c5EventsFrom : Nat → Nat → List Event
| _, 0 => []
| k, n+1 => c5IterEvents (k+1) ++ c5EventsFrom (k+1) n

/-- How often an object was stored into a given type's collection. -/
def countStores (tr : List Event) (t : String) : Nat :=
  (tr.filter (fun e => match e with
    | .storeObj t' _ => t' = t
    | _ => false)).length

/-- A state whose store has an empty `user` collection. -/
def userEmptyState : ScenarioState :=
  { objects := [("user", [])], counters := [], trace := [] }

/-- A state whose store holds one object only under the literal key
`address` (as `add_address` would create it). -/
def addressOnlyState : ScenarioState :=
  { objects := [("address", [(.int 1, .obj [])])], counters := [], trace := [] }

/-- A state with a loaded `team` collection containing team 1. -/
def teamState : ScenarioState :=
  { objects := [("team", [(.int 1, .obj [("tname", .str "T")])])]
    counters := [], trace := [] }

/-- The state after storing one generated-id `user` object into the empty
store. -/
def firstStoreState : ScenarioState :=
  { objects := [("user", [(.int 1, .obj [])])]
    counters := [("user", 1)]
    trace := [.storeObj "user" (.int 1)] }

/-! ### Association-list and state lemmas -/

theorem alistLookup_append_self [DecidableEq α] (l : List (α × β)) (k : α)
    (v : β) (h : alistLookup l k = none) :
    alistLookup (l ++ [(k, v)]) k = some v := by
  induction l with
  | nil => simp [alistLookup]
  | cons p rest ih =>
    obtain ⟨k', v'⟩ := p
    by_cases hk : k = k'
    · simp [alistLookup, hk] at h
    · simp [alistLookup, hk] at h ⊢
      exact ih h

theorem alistLookup_insert_self [DecidableEq α] (l : List (α × β)) (k : α)
    (v : β) : alistLookup (alistInsert l k v) k = some v := by
  induction l with
  | nil => simp [alistInsert, alistLookup]
  | cons p rest ih =>
    obtain ⟨k', v'⟩ := p
    by_cases hk : k = k'
    · simp [alistInsert, alistLookup, hk]
    · simp [alistInsert, alistLookup, hk, ih]

theorem alistLookup_insert_ne [DecidableEq α] (l : List (α × β)) (k k' : α)
    (v : β) (h : k' ≠ k) :
    alistLookup (alistInsert l k v) k' = alistLookup l k' := by
  induction l with
  | nil => simp [alistInsert, alistLookup, h]
  | cons p rest ih =>
    obtain ⟨k₀, v₀⟩ := p
    by_cases hk : k = k₀
    · subst hk
      simp [alistInsert, alistLookup, h]
    · by_cases hk' : k' = k₀ <;> simp [alistInsert, alistLookup, hk, hk', ih]

theorem getObjs_touchObjs_self (st : ScenarioState) (t : String) :
    getObjs (touchObjs st t) t = getObjs st t := by
  unfold touchObjs
  by_cases h : hasType st t
  · simp [h]
  · simp [h, getObjs]
    unfold hasType at h
    simp at h
    rw [alistLookup_append_self st.objects t [] h]
    simp [h]

theorem counterOf_touchObjs (st : ScenarioState) (t u : String) :
    counterOf (touchObjs st t) u = counterOf st u := by
  unfold touchObjs counterOf
  by_cases h : hasType st t <;> simp [h]

theorem getObjs_touchCounter (st : ScenarioState) (t u : String) :
    getObjs (touchCounter st t) u = getObjs st u := by
  unfold touchCounter getObjs
  by_cases h : (alistLookup st.counters t).isSome <;> simp [h]

theorem counterOf_touchCounter_self (st : ScenarioState) (t : String) :
    counterOf (touchCounter st t) t = counterOf st t := by
  unfold touchCounter counterOf
  by_cases h : (alistLookup st.counters t).isSome
  · simp [h]
  · simp at h
    simp [h, alistLookup_append_self st.counters t 1 h]

theorem counterOf_setCounter_self (st : ScenarioState) (t : String) (n : Nat) :
    counterOf (setCounter st t n) t = n := by
  unfold setCounter counterOf
  simp [alistLookup_insert_self]

theorem alistLookup_eq_none_of_not_mem (l : List (PyId × Val)) (k : PyId)
    (h : k ∉ listKeys l) : alistLookup l k = none := by
  induction l with
  | nil => rfl
  | cons p rest ih =>
    obtain ⟨k', v'⟩ := p
    simp [listKeys] at h
    simp [alistLookup, h.1]
    exact ih (by simp [listKeys]; exact h.2)

theorem alistInsert_not_mem [DecidableEq α] (l : List (α × β)) (k : α)
    (v : β) (h : alistLookup l k = none) : alistInsert l k v = l ++ [(k, v)] := by
  induction l with
  | nil => rfl
  | cons p rest ih =>
    obtain ⟨k', v'⟩ := p
    by_cases hk : k = k'
    · simp [alistLookup, hk] at h
    · simp [alistLookup, hk] at h
      simp [alistInsert, hk, ih h]

theorem getObjs_setObjs_self (st : ScenarioState) (t : String)
    (coll : List (PyId × Val)) : getObjs (setObjs st t coll) t = coll := by
  simp [getObjs, setObjs, alistLookup_insert_self]

theorem hasType_setObjs_self (st : ScenarioState) (t : String)
    (coll : List (PyId × Val)) : hasType (setObjs st t coll) t = true := by
  simp [hasType, setObjs, alistLookup_insert_self]

theorem counters_touchObjs (st : ScenarioState) (t : String) :
    (touchObjs st t).counters = st.counters := by
  unfold touchObjs
  split <;> rfl

theorem getObjs_addTrace (st : ScenarioState) (t : String) (e : Event) :
    getObjs (addTrace st e) t = getObjs st t := rfl

theorem getObjs_setCounter (st : ScenarioState) (t u : String) (n : Nat) :
    getObjs (setCounter st t n) u = getObjs st u := rfl

theorem touchObjs_of_hasType (st : ScenarioState) (t : String)
    (h : hasType st t = true) : touchObjs st t = st := by
  unfold touchObjs
  simp [h]

theorem getObjs_generateId_snd (st : ScenarioState) (t : String) :
    getObjs (generateId st t).2 t = getObjs st t := by
  unfold generateId
  rw [getObjs_setCounter, getObjs_touchCounter, getObjs_touchObjs_self]

theorem hasType_addTrace (st : ScenarioState) (t : String) (e : Event) :
    hasType (addTrace st e) t = hasType st t := rfl

/-! ### First-free id generation -/

theorem exists_unoccupied (occ : List PyId) (c : Nat) :
    ∃ k, k < occ.length + 1 ∧ PyId.int (c + k) ∉ occ := by
  by_contra h
  push_neg at h
  have hsub : (List.range (occ.length + 1)).map (fun k => PyId.int (c + k)) ⊆ occ := by
    intro x hx
    simp only [List.mem_map, List.mem_range] at hx
    obtain ⟨k, hk, rfl⟩ := hx
    exact h k hk
  have hnd : ((List.range (occ.length + 1)).map (fun k => PyId.int (c + k))).Nodup := by
    refine List.Nodup.map ?_ (List.nodup_range _)
    intro a b hab
    have := PyId.int.inj hab
    omega
  have := (hnd.subperm hsub).length_le
  simp at this

theorem genFromAux_spec (occ : List PyId) :
    ∀ fuel c, (∃ k, k < fuel ∧ PyId.int (c + k) ∉ occ) →
    PyId.int (genFromAux occ c fuel) ∉ occ ∧
    c ≤ genFromAux occ c fuel ∧
    ∀ j, c ≤ j → j < genFromAux occ c fuel → PyId.int j ∈ occ := by
  intro fuel
  induction fuel with
  | zero =>
    intro c ⟨k, hk, _⟩
    omega
  | succ f ih =>
    intro c ⟨k, hk, hfree⟩
    unfold genFromAux
    by_cases hc : PyId.int c ∈ occ
    · rw [if_pos hc]
      have hk0 : k ≠ 0 := by
        intro h
        subst h
        simp at hfree
        exact hfree hc
      obtain ⟨k', rfl⟩ : ∃ k', k = k' + 1 := ⟨k - 1, by omega⟩
      have hfree' : PyId.int (c + 1 + k') ∉ occ := by
        have : c + 1 + k' = c + (k' + 1) := by omega
        rw [this]
        exact hfree
      obtain ⟨h1, h2, h3⟩ := ih (c+1) ⟨k', by omega, hfree'⟩
      refine ⟨h1, by omega, ?_⟩
      intro j hj1 hj2
      rcases Nat.eq_or_lt_of_le hj1 with h | h
      · subst h
        exact hc
      · exact h3 j (by omega) hj2
    · rw [if_neg hc]
      exact ⟨hc, Nat.le_refl c, fun j hj1 hj2 => by omega⟩

theorem genFrom_spec (occ : List PyId) (c : Nat) :
    PyId.int (genFrom occ c) ∉ occ ∧
    c ≤ genFrom occ c ∧
    ∀ j, c ≤ j → j < genFrom occ c → PyId.int j ∈ occ :=
  genFromAux_spec occ (occ.length + 1) c (exists_unoccupied occ c)

/-! ### Count loading (C5) -/

theorem mem_listKeys_idRangeObjs (j k : Nat) :
    PyId.int j ∈ listKeys (idRangeObjs k) ↔ 1 ≤ j ∧ j ≤ k := by
  simp only [listKeys, idRangeObjs, List.map_map, List.mem_map, List.mem_range]
  constructor
  · rintro ⟨i, hi, he⟩
    have := PyId.int.inj he
    omega
  · rintro ⟨h1, h2⟩
    exact ⟨j - 1, by omega, by simp; omega⟩

theorem genFrom_idRange (k : Nat) (hk : 1 ≤ k) :
    genFrom (listKeys (idRangeObjs k)) k = k + 1 := by
  obtain ⟨h1, h2, h3⟩ := genFrom_spec (listKeys (idRangeObjs k)) k
  by_contra hne
  rcases Nat.lt_or_ge (genFrom (listKeys (idRangeObjs k)) k) (k+1) with h | h
  · have heq : genFrom (listKeys (idRangeObjs k)) k = k := by omega
    rw [heq] at h1
    exact h1 ((mem_listKeys_idRangeObjs k k).2 ⟨hk, Nat.le_refl k⟩)
  · have hk1 := h3 (k+1) (by omega) (by omega)
    have := (mem_listKeys_idRangeObjs (k+1) k).1 hk1
    omega

theorem idRangeObjs_succ (k : Nat) :
    idRangeObjs (k+1) = idRangeObjs k ++ [(.int (k+1), .obj [])] := by
  simp [idRangeObjs, List.range_succ]

theorem alistInsert_idRange_succ (k : Nat) :
    alistInsert (idRangeObjs k) (.int (k+1)) (.obj []) = idRangeObjs (k+1) := by
  rw [alistInsert_not_mem, ← idRangeObjs_succ]
  apply alistLookup_eq_none_of_not_mem
  rw [mem_listKeys_idRangeObjs]
  omega

theorem generateId_idRange (k : Nat) (hk : 1 ≤ k) (tr : List Event) :
    generateId ⟨[("user", idRangeObjs k)], [("user", k)], tr⟩ "user" =
      (k+1, ⟨[("user", idRangeObjs k)], [("user", k+1)], tr⟩) := by
  show (genFrom (listKeys (idRangeObjs k)) k,
    setCounter ⟨[("user", idRangeObjs k)], [("user", k)], tr⟩ "user"
      (genFrom (listKeys (idRangeObjs k)) k)) = _
  rw [genFrom_idRange k hk]
  rfl

theorem c5_addgen (k : Nat) (hk : 1 ≤ k) : ∀ tr',
    addObject ⟨[("user", idRangeObjs k)], [("user", k)], tr'⟩ (.obj []) "user"
      none =
    .ok ⟨[("user", idRangeObjs (k+1))], [("user", k+1)],
      tr' ++ [.storeObj "user" (.int (k+1))]⟩ := by
  intro tr'
  unfold addObject
  dsimp only
  rw [show touchObjs ⟨[("user", idRangeObjs k)], [("user", k)], tr'⟩ "user" =
    ⟨[("user", idRangeObjs k)], [("user", k)], tr'⟩ from rfl]
  rw [generateId_idRange k hk tr']
  dsimp only
  rw [show getObjs ⟨[("user", idRangeObjs k)], [("user", k+1)], tr'⟩ "user" =
    idRangeObjs k from rfl]
  rw [alistInsert_idRange_succ]
  rfl

theorem c5_step (ltdf : LoadFn) (g k : Nat) (hk : 1 ≤ k) (tr : List Event) :
    loadTypeWith ltdf envC5 (g+1) "user" (.dict [])
      ⟨[("user", idRangeObjs k)], [("user", k)], tr⟩ =
    .ok ⟨[("user", idRangeObjs (k+1))], [("user", k+1)],
      tr ++ c5IterEvents (k+1)⟩ := by
  unfold loadTypeWith loadTypeBodyWith createObjWith
  rw [show getTypeHandler envC5 "user" = .ok simpleHandler from rfl,
      show popId (Val.dict []) = .ok (none, .dict []) from rfl]
  dsimp only [bind, Except.bind, pure, Except.pure]
  rw [show ∀ st, processRefsWith ltdf envC5 "user" (g+1) (Val.dict []) [] st =
    .ok (.dict [], [], st) from fun _ => rfl]
  dsimp only [bind, Except.bind, pure, Except.pure]
  rw [show simpleHandler.create [] = .ok (.obj []) from rfl]
  dsimp only [bind, Except.bind, pure, Except.pure]
  rw [show addTrace (addTrace ⟨[("user", idRangeObjs k)], [("user", k)], tr⟩
      (.loadTypeCall "user" (.dict []))) (.createCall "user" (.dict [])) =
    (⟨[("user", idRangeObjs k)], [("user", k)],
      (tr ++ [.loadTypeCall "user" (.dict [])]) ++
        [.createCall "user" (.dict [])]⟩ : ScenarioState) from rfl]
  rw [c5_addgen k hk]
  dsimp only [replayMethodsWith]
  simp [c5IterEvents, addTrace, pure, Except.pure]

theorem c5_addgen_first : ∀ tr',
    addObject ⟨[], [], tr'⟩ (.obj []) "user" none =
    .ok ⟨[("user", idRangeObjs 1)], [("user", 1)],
      tr' ++ [.storeObj "user" (.int 1)]⟩ :=
  fun _ => rfl

theorem c5_first_step (ltdf : LoadFn) (g : Nat) (tr : List Event) :
    loadTypeWith ltdf envC5 (g+1) "user" (.dict []) ⟨[], [], tr⟩ =
    .ok ⟨[("user", idRangeObjs 1)], [("user", 1)], tr ++ c5IterEvents 1⟩ := by
  unfold loadTypeWith loadTypeBodyWith createObjWith
  rw [show getTypeHandler envC5 "user" = .ok simpleHandler from rfl,
      show popId (Val.dict []) = .ok (none, .dict []) from rfl]
  dsimp only [bind, Except.bind, pure, Except.pure]
  rw [show ∀ st, processRefsWith ltdf envC5 "user" (g+1) (Val.dict []) [] st =
    .ok (.dict [], [], st) from fun _ => rfl]
  dsimp only [bind, Except.bind, pure, Except.pure]
  rw [show simpleHandler.create [] = .ok (.obj []) from rfl]
  dsimp only [bind, Except.bind, pure, Except.pure]
  rw [show addTrace (addTrace ⟨[], [], tr⟩ (.loadTypeCall "user" (.dict [])))
      (.createCall "user" (.dict [])) =
    (⟨[], [], (tr ++ [.loadTypeCall "user" (.dict [])]) ++
      [.createCall "user" (.dict [])]⟩ : ScenarioState) from rfl]
  rw [c5_addgen_first]
  dsimp only [replayMethodsWith]
  simp [c5IterEvents, addTrace, pure, Except.pure]

theorem c5_loop (ltdf : LoadFn) (g : Nat) :
    ∀ n k tr, 1 ≤ k →
    loadCountWith ltdf envC5 (g+1) "user" n
      ⟨[("user", idRangeObjs k)], [("user", k)], tr⟩ =
    .ok ⟨[("user", idRangeObjs (k+n))], [("user", k+n)],
      tr ++ c5EventsFrom k n⟩ := by
  intro n
  induction n with
  | zero =>
    intro k tr hk
    simp [loadCountWith, c5EventsFrom, pure, Except.pure]
  | succ m ih =>
    intro k tr hk
    simp only [loadCountWith, bind, Except.bind]
    rw [c5_step ltdf g k hk tr]
    dsimp only
    rw [ih (k+1) (tr ++ c5IterEvents (k+1)) (by omega)]
    have harith : k + 1 + m = k + (m + 1) := by omega
    rw [harith]
    simp [c5EventsFrom, List.append_assoc]

/-! ### Fresh-type stores and deferred-method replay (C2) -/

theorem alistInsert_append_last [DecidableEq α] (l : List (α × β)) (k : α)
    (v w : β) (h : alistLookup l k = none) :
    alistInsert (l ++ [(k, v)]) k w = l ++ [(k, w)] := by
  induction l with
  | nil => simp [alistInsert]
  | cons p rest ih =>
    obtain ⟨k', v'⟩ := p
    by_cases hk : k = k'
    · simp [alistLookup, hk] at h
    · simp [alistLookup, hk] at h
      simp [alistInsert, hk, ih h]

theorem generateId_fresh (st : ScenarioState) (t : String)
    (hty : alistLookup st.objects t = none)
    (hcnt : alistLookup st.counters t = none) :
    generateId (touchObjs st t) t =
      (1, ⟨st.objects ++ [(t, [])], st.counters ++ [(t, 1)], st.trace⟩) := by
  have h1 : touchObjs st t =
      ⟨st.objects ++ [(t, [])], st.counters, st.trace⟩ := by
    unfold touchObjs hasType
    rw [hty]
    rfl
  rw [h1]
  unfold generateId
  dsimp only
  have h2 : touchObjs ⟨st.objects ++ [(t, [])], st.counters, st.trace⟩ t =
      ⟨st.objects ++ [(t, [])], st.counters, st.trace⟩ := by
    apply touchObjs_of_hasType
    simp [hasType, alistLookup_append_self _ _ _ hty]
  rw [h2]
  have h3 : touchCounter ⟨st.objects ++ [(t, [])], st.counters, st.trace⟩ t =
      ⟨st.objects ++ [(t, [])], st.counters ++ [(t, 1)], st.trace⟩ := by
    unfold touchCounter
    rw [hcnt]
    rfl
  rw [h3]
  have h4 : getObjs ⟨st.objects ++ [(t, [])], st.counters ++ [(t, 1)],
      st.trace⟩ t = [] := by
    simp [getObjs, alistLookup_append_self _ _ _ hty]
  have h5 : counterOf ⟨st.objects ++ [(t, [])], st.counters ++ [(t, 1)],
      st.trace⟩ t = 1 := by
    simp [counterOf, alistLookup_append_self _ _ _ hcnt]
  rw [h4, h5]
  rw [show genFrom (listKeys []) 1 = 1 from rfl]
  unfold setCounter
  dsimp only
  rw [alistInsert_append_last _ _ _ _ hcnt]

theorem replay_single_plain (ltdf : LoadFn) (env : ScenarioEnv) (t : String)
    (newObj : Val) (m : String) (v : Val) (st : ScenarioState)
    (h : TypeHandler)
    (hgt : getTypeHandler env t = .ok h)
    (hrm : h.runMethod m [newObj, v] = .ok ())
    (hstr : ∀ s, v ≠ .str s) (hlst : ∀ es, v ≠ .list es) :
    replayMethodsWith ltdf env t newObj [(m, v)] st =
      .ok (addTrace st (.methodCall m [newObj, v])) := by
  cases v with
  | str s => exact absurd rfl (hstr s)
  | list es => exact absurd rfl (hlst es)
  | int n =>
    simp only [replayMethodsWith, bind, Except.bind, pure, Except.pure]
    rw [hgt]
    dsimp only [bind, Except.bind, pure, Except.pure]
    rw [hrm]
  | dict fs =>
    simp only [replayMethodsWith, bind, Except.bind, pure, Except.pure]
    rw [hgt]
    dsimp only [bind, Except.bind, pure, Except.pure]
    rw [hrm]
  | obj fs =>
    simp only [replayMethodsWith, bind, Except.bind, pure, Except.pure]
    rw [hgt]
    dsimp only [bind, Except.bind, pure, Except.pure]
    rw [hrm]

/-! ### The claims -/

/-- C1: loading three `user` objects — auto id 1, explicit id 2, explicit
id 1 — stores only two objects: `_relocate_object` moves the occupant of
id 1 to `counter + 1 = 2` without checking occupancy, silently overwriting
the object at id 2 (`name = "b"` is gone from the final store although it
was stored once). This refutes "no stored object is ever overwritten or
lost by a collision": the code never advances the counter to a free slot. -/
theorem c1_collision_overwrites :
    (scenarioInit 3 envC1 []).map (fun st => getObjs st "user") =
      .ok [(.int 2, .obj [("name", .str "a")]), (.int 1, .obj [("name", .str "c")])] ∧
    countStores (traceOf (scenarioInit 3 envC1 [])) "user" = 3 ∧
    (scenarioInit 3 envC1 []).map (fun st => (getObjs st "user").length) = .ok 2 :=
  ⟨rfl, rfl, rfl⟩

/-- C2 (counterexample): on the definition
`{name: "w", attach: "$team_1"}` whose key `attach` is classified as a
deferred method, the constructor is called with the `attach` key still
present (raw value included), refuting "the construction entry point is
called without the deferred-method field". The full trace also shows the
replay happening after construction. -/
theorem c2_deferred_key_not_removed :
    (scenarioInit 5 envC2 []).map (fun st => st.trace) = .ok
      [.beginLoad "widget",
       .loadTypeCall "widget" (.dict [("name", .str "w"), ("attach", .str "$team_1")]),
       .createCall "widget" (.dict [("name", .str "w"), ("attach", .str "$team_1")]),
       .storeObj "widget" (.int 1),
       .beginLoad "team",
       .loadTypeCall "team" (.dict [("tname", .str "T")]),
       .createCall "team" (.dict [("tname", .str "T")]),
       .storeObj "team" (.int 1),
       .methodCall "attach"
         [.obj [("name", .str "w"), ("attach", .str "$team_1")],
          .obj [("tname", .str "T")]]] ∧
    Event.createCall "widget" (.dict [("name", .str "w"), ("attach", .str "$team_1")])
      ∈ traceOf (scenarioInit 5 envC2 []) := by
  refine ⟨rfl, ?_⟩
  rw [show traceOf (scenarioInit 5 envC2 []) =
    [.beginLoad "widget",
     .loadTypeCall "widget" (.dict [("name", .str "w"), ("attach", .str "$team_1")]),
     .createCall "widget" (.dict [("name", .str "w"), ("attach", .str "$team_1")]),
     .storeObj "widget" (.int 1),
     .beginLoad "team",
     .loadTypeCall "team" (.dict [("tname", .str "T")]),
     .createCall "team" (.dict [("tname", .str "T")]),
     .storeObj "team" (.int 1),
     .methodCall "attach"
       [.obj [("name", .str "w"), ("attach", .str "$team_1")],
        .obj [("tname", .str "T")]]] from rfl]
  exact .tail _ (.tail _ (.head _))

/-- C3 (counterexample): with `foo = [{x: $bar_1}]` (one declared object)
and `bar = [{}, {z: $foo_1}]`, the load of `foo` is re-entered through lazy
loading before `foo` is marked loaded (marking only happens when its first
object is stored), so `foo` passes the not-yet-loaded guard twice and its
one-object definition materializes two objects. This refutes "its declared
definition is loaded at most once ... never re-enters the same type's
load". -/
theorem c3_reentrant_load :
    countBeginLoad (traceOf (scenarioInit 5 envC3 [])) "foo" = 2 ∧
    alistLookup envC3.rawData "foos" = some (.list [.dict [("x", .str "$bar_1")]]) ∧
    (scenarioInit 5 envC3 []).map (fun st => (getObjs st "foo").length) = .ok 2 :=
  ⟨rfl, rfl, rfl⟩

/-- C5 (counterexample): a type declared as the falsy non-int value `""`
raises `KeyError` (not the fatal engine `ScenariousException` the claim
requires for non-{list, dict, int} definitions), and a type declared as the
non-negative count `0` under its singular name also raises `KeyError`
instead of completing with zero objects: a falsy definition is re-fetched
via `raw_data.get(name, raw_data[name + "s"])`, whose default is evaluated
eagerly. -/
theorem c5_falsy_definition_keyerror :
    scenarioInit 3 envC5falsy [] = .error (.pyErr "KeyError: things") ∧
    scenarioInit 3 envC5zero [] = .error (.pyErr "KeyError: users") :=
  ⟨rfl, rfl⟩

/-- C8 (counterexample): after `add_users(name="b")` the store holds the
collection key `users` (the adder does not singularize the name it stores
under) next to the loaded collection key `user`. The token
`$users_1` resolves through the core to the `b` object, while
`by_id("users", 1)` singularizes to `user` and returns the `a` object: the
two lookups disagree on the same (type, id). -/
theorem c8_plural_token_mismatch :
    c8Resolve = .ok (.obj [("name", .str "b")]) ∧
    c8Fetch = .ok (some (.obj [("name", .str "a")])) ∧
    Val.obj [("name", .str "b")] ≠ Val.obj [("name", .str "a")] := by
  refine ⟨rfl, rfl, ?_⟩
  intro h
  simp at h

/-- C4: `_generate_id` returns the first id not occupied in the type's
collection, starting from the type's current counter (which `defaultdict`
initializes to 1): the result is unoccupied, at least the counter, every
value from the counter up to it is occupied (the loop checks occupancy at
every step), and the result becomes the new counter value. -/
theorem c4_generate_id_first_free (st : ScenarioState) (t : String) :
    counterOf initialState t = 1 ∧
    PyId.int (generateId st t).1 ∉ listKeys (getObjs st t) ∧
    counterOf st t ≤ (generateId st t).1 ∧
    (∀ j, counterOf st t ≤ j → j < (generateId st t).1 →
      PyId.int j ∈ listKeys (getObjs st t)) ∧
    counterOf (generateId st t).2 t = (generateId st t).1 := by
  have h1 : getObjs (touchCounter (touchObjs st t) t) t = getObjs st t := by
    rw [getObjs_touchCounter, getObjs_touchObjs_self]
  have h2 : counterOf (touchCounter (touchObjs st t) t) t = counterOf st t := by
    rw [counterOf_touchCounter_self, counterOf_touchObjs]
  have hg := genFrom_spec (listKeys (getObjs st t)) (counterOf st t)
  unfold generateId
  simp only [h1, h2]
  exact ⟨rfl, hg.1, hg.2.1, hg.2.2, counterOf_setCounter_self _ _ _⟩

/-- C5 (amended): for a positive count N, loading a type declared as the
integer N performs exactly N `_load_type` calls with the empty definition
and produces exactly the objects with auto-ids 1 … N (the counter ends at
N and the trace lists the N loads in order); and a truthy definition that
is not a list, dict or int raises the fatal engine error. Count 0 is
excluded: a falsy definition is re-fetched from the raw data and can raise
`KeyError` instead (see the counterexample). -/
theorem c5_count_load_amended :
    (∀ f N, 1 ≤ N →
      loadTypeDefinition envC5 (f+1) initialState "user" (some (.int N)) =
      .ok ⟨[("user", idRangeObjs N)], [("user", N)],
        Event.beginLoad "user" :: c5EventsFrom 0 N⟩) ∧
    (∀ f env st t v, hasType st t = false → pyTruthyVal v = true →
      (∀ n, v ≠ .int n) → (∀ xs, v ≠ .list xs) → (∀ fs, v ≠ .dict fs) →
      loadTypeDefinition env (f+1) st t (some v) = .error (.scenarious
        ("Type definition " ++ t ++ " must be a list, dict or int. Got " ++
          pyTypeName v ++ " instead"))) := by
  constructor
  · intro f N hN
    obtain ⟨M, rfl⟩ : ∃ M, N = M + 1 := ⟨N - 1, by omega⟩
    rw [show loadTypeDefinition envC5 (f+1) initialState "user"
        (some (.int (M+1))) =
      loadCountWith (fun st t => loadTypeDefinition envC5 f st t none)
        envC5 (f+1) "user" (M+1) ⟨[], [], [.beginLoad "user"]⟩ from rfl]
    simp only [loadCountWith, bind, Except.bind]
    rw [c5_first_step]
    dsimp only
    rw [c5_loop _ f M 1 ([Event.beginLoad "user"] ++ c5IterEvents 1)
      (Nat.le_refl 1)]
    have harith : 1 + M = M + 1 := by omega
    rw [harith]
    simp [c5EventsFrom, List.append_assoc]
  · intro f env st t v ht hv hint hlist hdict
    unfold loadTypeDefinition
    dsimp only
    rw [hv, if_pos rfl]
    dsimp only [bind, Except.bind, pure, Except.pure]
    rw [ht, if_neg Bool.false_ne_true]
    cases v with
    | int n => exact absurd rfl (hint n)
    | str s => rfl
    | list xs => exact absurd rfl (hlist xs)
    | dict fs => exact absurd rfl (hdict fs)
    | obj fs => rfl

/-- C5 (amended) witness: count 3 produces users 1, 2, 3, and a truthy
string definition raises the fatal engine error. -/
theorem c5_count_load_amended_witness :
    1 ≤ 3 ∧
    loadTypeDefinition envC5 1 initialState "user" (some (.int 3)) =
      .ok ⟨[("user", idRangeObjs 3)], [("user", 3)],
        Event.beginLoad "user" :: c5EventsFrom 0 3⟩ ∧
    loadTypeDefinition envC5 1 initialState "thing" (some (.str "x")) =
      .error (.scenarious
        "Type definition thing must be a list, dict or int. Got str instead") :=
  ⟨by decide, c5_count_load_amended.1 0 3 (by decide),
   c5_count_load_amended.2 0 envC5 initialState "thing" (.str "x") rfl rfl
    (fun n h => Val.noConfusion h) (fun xs h => Val.noConfusion h)
    (fun fs h => Val.noConfusion h)⟩

/-- C4 witness: generation on the empty store starts at counter 1 and
returns the unoccupied id 1. -/
theorem c4_generate_id_first_free_witness :
    counterOf initialState "user" = 1 ∧
    PyId.int (generateId initialState "user").1 ∉
      listKeys (getObjs initialState "user") ∧
    counterOf initialState "user" ≤ (generateId initialState "user").1 ∧
    (∀ j, counterOf initialState "user" ≤ j →
      j < (generateId initialState "user").1 →
      PyId.int j ∈ listKeys (getObjs initialState "user")) ∧
    counterOf (generateId initialState "user").2 "user" =
      (generateId initialState "user").1 :=
  c4_generate_id_first_free initialState "user"

/-- C7: `by_id` on a type whose (singularized) name has no collection in
the store raises a `KeyError`; on a present type with an absent id it
returns the explicit not-found result `None` instead of raising. -/
theorem c7_by_id_semantics (st : ScenarioState) (n : String) (i : PyId) :
    (hasType st (getTypeName n) = false →
      byId st n i = .error (.pyErr
        ("KeyError: Scenario doesnt have elements of type " ++ getTypeName n))) ∧
    (hasType st (getTypeName n) = true →
      alistLookup (getObjs st (getTypeName n)) i = none →
      byId st n i = .ok none) := by
  constructor
  · intro h
    simp [byId, h]
  · intro h hl
    simp [byId, h, hl]

/-- C7 witness: on the empty store, `by_id("user", 1)` raises; on a store
with an empty `user` collection it returns `None`. -/
theorem c7_by_id_semantics_witness :
    byId initialState "user" (.int 1) = .error (.pyErr
      "KeyError: Scenario doesnt have elements of type user") ∧
    byId userEmptyState "user" (.int 1) = .ok none :=
  ⟨(c7_by_id_semantics initialState "user" (.int 1)).1 rfl,
   (c7_by_id_semantics userEmptyState "user" (.int 1)).2 rfl rfl⟩

/-- C9: `_get_type_name` strips every trailing `s` (appending an `s` never
changes the result, and `address` mangles to `addre`, not `addres`), and
the three public lookup surfaces — `by_id`, attribute access, and the
`add_<name>` adder — all consult the mangled key, so whenever the store has
no `addre` collection, looking up `address` fails on all three surfaces
even if a collection stored under the literal key `address` exists. -/
theorem c9_lookup_strips_all_trailing_s :
    (∀ s, getTypeName (s ++ "s") = getTypeName s) ∧
    getTypeName "address" = "addre" ∧
    (∀ st i, hasType st "addre" = false →
      byId st "address" i = .error (.pyErr
        "KeyError: Scenario doesnt have elements of type addre") ∧
      scenarioGetAttr st "address" = .error (.pyErr
        "AttributeError: Scenario doesnt have type addre") ∧
      scenarioGetAttr st "add_address" = .error (.scenarious
        "Invalid type name address")) := by
  refine ⟨?_, rfl, ?_⟩
  · intro s
    unfold getTypeName
    obtain ⟨l⟩ := s
    have hd : (String.mk l ++ "s").toList = l ++ ['s'] := rfl
    rw [hd]
    simp [List.dropWhile]
  · intro st i h
    have e1 : getTypeName "address" = "addre" := rfl
    have e2 : startsWithAdd "address" = false := rfl
    have e3 : startsWithAdd "add_address" = true := rfl
    have e4 : stripAdd "add_address" = "address" := rfl
    refine ⟨?_, ?_, ?_⟩
    · simp [byId, e1, h]
    · simp [scenarioGetAttr, e1, e2, h]
    · simp [scenarioGetAttr, e1, e3, e4, h]

/-- C9 witness: on a store holding only the literal key `address`, all
three lookup surfaces fail for the name `address`. -/
theorem c9_lookup_strips_all_trailing_s_witness :
    getTypeName ("addres" ++ "s") = getTypeName "addres" ∧
    getTypeName "address" = "addre" ∧
    (byId addressOnlyState "address" (.int 1) = .error (.pyErr
      "KeyError: Scenario doesnt have elements of type addre") ∧
     scenarioGetAttr addressOnlyState "address" = .error (.pyErr
      "AttributeError: Scenario doesnt have type addre") ∧
     scenarioGetAttr addressOnlyState "add_address" = .error (.scenarious
      "Invalid type name address")) :=
  ⟨c9_lookup_strips_all_trailing_s.1 "addres",
   c9_lookup_strips_all_trailing_s.2.1,
   c9_lookup_strips_all_trailing_s.2.2 addressOnlyState (.int 1) rfl⟩

/-- C10: an explicit id `0` (falsy, unoccupied) is treated exactly like an
absent id: `_add_object` takes the generate-id branch, so the object is
stored under the freshly generated id (at least 1) and not under `0`, and
a lookup of id `0` in the resulting collection finds nothing. -/
theorem c10_falsy_id_generates (st : ScenarioState) (obj : Val) (t : String)
    (h0 : PyId.int 0 ∉ listKeys (getObjs st t)) (hc : 1 ≤ counterOf st t) :
    addObject st obj t (some (.int 0)) = addObject st obj t none ∧
    (addObject st obj t (some (.int 0))).map
      (fun s => alistLookup (getObjs s t) (.int 0)) = .ok none ∧
    (addObject st obj t (some (.int 0))).map
      (fun s => alistLookup (getObjs s t) (.int (generateId st t).1)) =
      .ok (some obj) := by
  have hmem : (PyId.int 0 ∈ listKeys (getObjs (touchObjs st t) t)) = False := by
    rw [getObjs_touchObjs_self]
    simp [h0]
  have hgen : generateId (touchObjs st t) t = generateId st t := by
    unfold generateId
    have htt : touchObjs (touchObjs st t) t = touchObjs st t := by
      unfold touchObjs
      by_cases hh : hasType st t
      · simp [hh]
      · simp [hh]
        have : hasType { st with objects := st.objects ++ [(t, [])] } t = true := by
          unfold hasType at hh ⊢
          simp at hh
          simp [alistLookup_append_self st.objects t [] hh]
        simp [this]
    rw [htt]
  have hr := c4_generate_id_first_free st t
  have hr1 : 1 ≤ (generateId st t).1 := le_trans hc hr.2.2.1
  constructor
  · unfold addObject
    simp only [hmem, if_false, pyFalsyId]
    rfl
  · constructor
    · unfold addObject
      simp only [hmem, if_false, pyFalsyId, if_true]
      rw [hgen]
      simp only [Except.map]
      rw [getObjs_addTrace, getObjs_setObjs_self]
      rw [alistLookup_insert_ne]
      · rw [getObjs_generateId_snd, alistLookup_eq_none_of_not_mem _ _ h0]
      · intro hh
        have := PyId.int.inj hh
        omega
    · unfold addObject
      simp only [hmem, if_false, pyFalsyId, if_true]
      rw [hgen]
      simp only [Except.map]
      rw [getObjs_addTrace, getObjs_setObjs_self]
      rw [alistLookup_insert_self]

/-- C10 witness: on the empty store with counter 1, explicit id `0` stores
the object under the generated id 1 and id `0` finds nothing. -/
theorem c10_falsy_id_generates_witness :
    (PyId.int 0 ∉ listKeys (getObjs initialState "user")) ∧
    1 ≤ counterOf initialState "user" ∧
    addObject initialState (.obj []) "user" (some (.int 0)) =
      addObject initialState (.obj []) "user" none ∧
    (addObject initialState (.obj []) "user" (some (.int 0))).map
      (fun s => alistLookup (getObjs s "user") (.int 0)) = .ok none ∧
    (addObject initialState (.obj []) "user" (some (.int 0))).map
      (fun s => alistLookup (getObjs s "user")
        (.int (generateId initialState "user").1)) = .ok (some (.obj [])) := by
  have h := c10_falsy_id_generates initialState (.obj []) "user"
    (by simp [initialState, getObjs, listKeys, alistLookup]) (by simp [initialState, counterOf, alistLookup])
  exact ⟨by simp [initialState, getObjs, listKeys, alistLookup],
    by simp [initialState, counterOf, alistLookup], h.1, h.2.1, h.2.2⟩

/-- C6: the `except` ladder of `_load_type` re-raises `TypeHandlerException`
and `ScenariousException` unchanged, wraps `ReferenceException` as a
`ReferenceException` carrying the failing type name, wraps every other
exception as a `ScenariousException` with the same context, and
`_load_type` applies exactly this ladder to whatever its body raises
(successes pass through untouched). -/
theorem c6_error_propagation (t : String) :
    (∀ m, wrapLoadErr t (.typeHandler m) = .typeHandler m) ∧
    (∀ m, wrapLoadErr t (.scenarious m) = .scenarious m) ∧
    (∀ m, wrapLoadErr t (.reference m) =
      .reference ("Error loading type " ++ t ++ ". Detail: " ++ m)) ∧
    (∀ m, wrapLoadErr t (.pyErr m) =
      .scenarious ("Error loading type " ++ t ++ ". Detail: " ++ m)) ∧
    (∀ ltdf env fuel d st e, loadTypeBodyWith ltdf env fuel t d st = .error e →
      loadTypeWith ltdf env fuel t d st = .error (wrapLoadErr t e)) ∧
    (∀ ltdf env fuel d st st', loadTypeBodyWith ltdf env fuel t d st = .ok st' →
      loadTypeWith ltdf env fuel t d st = .ok st') :=
  ⟨fun _ => rfl, fun _ => rfl, fun _ => rfl, fun _ => rfl,
   fun _ _ _ _ _ _ h => by simp [loadTypeWith, h],
   fun _ _ _ _ _ _ h => by simp [loadTypeWith, h]⟩

/-- C2 (amended): when a mapping key is classified as a deferred method,
the (method, raw value) pair is recorded — but the key is NOT removed from
the definition handed to the constructor: `handler.create` receives the
deferred-method field with its raw value. The invocation is replayed
against the object after construction (the trace shows create, store, then
the method call). -/
theorem c2_amended_recorded_not_removed (ltdf : LoadFn) (env : ScenarioEnv)
    (st : ScenarioState) (t : String) (h : TypeHandler) (k : String)
    (v obj : Val) (g : Nat)
    (hh : alistLookup env.typeHandlers t = some h)
    (hm : h.is_method k = true)
    (hk : k ≠ "id")
    (hcr : h.create [(k, v)] = .ok obj)
    (hrm : h.runMethod (h.getSpecialMethod k) [obj, v] = .ok ())
    (hstr : ∀ s, v ≠ .str s) (hlst : ∀ es, v ≠ .list es)
    (hty : alistLookup st.objects t = none)
    (hcnt : alistLookup st.counters t = none) :
    processRefsWith ltdf env t (g+1) (.dict [(k, v)]) [] st =
      .ok (.dict [(k, v)], [(h.getSpecialMethod k, v)], st) ∧
    (loadTypeWith ltdf env (g+1) t (.dict [(k, v)]) st).map
      (fun s => (getObjs s t, s.trace)) =
      .ok ([(.int 1, obj)],
        st.trace ++ [.loadTypeCall t (.dict [(k, v)]),
          .createCall t (.dict [(k, v)]),
          .storeObj t (.int 1),
          .methodCall (h.getSpecialMethod k) [obj, v]]) := by
  have hgt : getTypeHandler env t = .ok h := by
    unfold getTypeHandler
    rw [hh]
  have hA : ∀ st' : ScenarioState,
      processRefsWith ltdf env t (g+1) (.dict [(k, v)]) [] st' =
      .ok (.dict [(k, v)], [(h.getSpecialMethod k, v)], st') := by
    intro st'
    unfold processRefsWith processFieldsGeneric
    rw [hgt]
    dsimp only [bind, Except.bind, pure, Except.pure]
    rw [hm, if_pos rfl]
    rw [show ∀ (p : ProcessFn) r sm st₀,
      processFieldsGeneric p r env t [(k, v)] [] sm st₀ =
        .ok ([(k, v)], sm, st₀) from fun _ _ _ _ => rfl]
    rfl
  refine ⟨hA st, ?_⟩
  unfold loadTypeWith loadTypeBodyWith createObjWith
  rw [hgt]
  have hpop : popId (.dict [(k, v)]) = .ok (none, .dict [(k, v)]) := by
    unfold popId alistPop
    dsimp only
    rw [if_neg (fun hid => hk hid.symm)]
    rfl
  rw [hpop]
  dsimp only [bind, Except.bind, pure, Except.pure]
  rw [hA]
  dsimp only [bind, Except.bind, pure, Except.pure]
  rw [hcr]
  dsimp only [bind, Except.bind, pure, Except.pure]
  rw [show addTrace (addTrace st (.loadTypeCall t (.dict [(k, v)])))
      (.createCall t (.dict [(k, v)])) =
    (⟨st.objects, st.counters, (st.trace ++ [.loadTypeCall t (.dict [(k, v)])])
      ++ [.createCall t (.dict [(k, v)])]⟩ : ScenarioState) from rfl]
  unfold addObject
  dsimp only
  rw [generateId_fresh (⟨st.objects, st.counters,
    st.trace ++ [Event.loadTypeCall t (Val.dict [(k, v)])] ++
      [Event.createCall t (Val.dict [(k, v)])]⟩ : ScenarioState) t hty hcnt]
  dsimp only
  rw [show getObjs ⟨st.objects ++ [(t, [])], st.counters ++ [(t, 1)],
    (st.trace ++ [.loadTypeCall t (.dict [(k, v)])]) ++
      [.createCall t (.dict [(k, v)])]⟩ t = [] from by
    simp [getObjs, alistLookup_append_self _ _ _ hty]]
  rw [show alistInsert ([] : List (PyId × Val)) (.int 1) obj = [(.int 1, obj)]
    from rfl]
  rw [replay_single_plain ltdf env t obj (h.getSpecialMethod k) v _ h hgt hrm
    hstr hlst]
  dsimp only [Except.map]
  rw [getObjs_addTrace, getObjs_addTrace, getObjs_setObjs_self]
  simp [addTrace, setObjs]

/-- C2 (amended) witness: a deferred `attach` field with the plain value 7
is recorded, kept in the constructor arguments, and replayed after
construction. -/
theorem c2_amended_recorded_not_removed_witness :
    processRefsWith ltdfNull envC2 "widget" 1
      (.dict [("attach", .int 7)]) [] initialState =
      .ok (.dict [("attach", .int 7)], [("attach", .int 7)], initialState) ∧
    (loadTypeWith ltdfNull envC2 1 "widget" (.dict [("attach", .int 7)])
        initialState).map (fun s => (getObjs s "widget", s.trace)) =
      .ok ([(.int 1, .obj [("attach", .int 7)])],
        [.loadTypeCall "widget" (.dict [("attach", .int 7)]),
         .createCall "widget" (.dict [("attach", .int 7)]),
         .storeObj "widget" (.int 1),
         .methodCall "attach" [.obj [("attach", .int 7)], .int 7]]) := by
  have h := c2_amended_recorded_not_removed ltdfNull envC2 initialState
    "widget" attachHandler "attach" (.int 7) (.obj [("attach", .int 7)]) 0
    rfl rfl (by decide) rfl rfl
    (fun s hs => Val.noConfusion hs) (fun es hes => Val.noConfusion hes)
    rfl rfl
  exact ⟨h.1, h.2⟩

/-- C3 (amended): a type is marked loaded only once an object of it is
stored (every store marks the type), not when its load begins; a load of a
type that already has a collection — with a supplied truthy definition —
is a no-op, but a lazy load re-entered before the type's first object is
stored passes the guard again (see the counterexample). -/
theorem c3_amended_loaded_when_first_stored :
    (∀ f env st t d, hasType st t = true → pyTruthyVal d = true →
      loadTypeDefinition env (f+1) st t (some d) = .ok st) ∧
    (∀ st obj t refId st', addObject st obj t refId = .ok st' →
      hasType st' t = true) := by
  constructor
  · intro f env st t d ht hd
    simp [loadTypeDefinition, ht, hd, pure, Except.pure]
    rfl
  · intro st obj t refId st' h
    unfold addObject at h
    cases refId with
    | none =>
      try dsimp only at h
      cases hG : generateId (touchObjs st t) t with
      | mk r st₂ =>
        rw [hG] at h
        try dsimp only at h
        injection h with h'
        subst h'
        rw [hasType_addTrace, hasType_setObjs_self]
    | some i =>
      try dsimp only at h
      by_cases hi : i ∈ listKeys (getObjs (touchObjs st t) t)
      · rw [if_pos hi] at h
        cases hrel : relocateObject (touchObjs st t) i t with
        | error e =>
          rw [hrel] at h
          cases h
        | ok st₂ =>
          rw [hrel] at h
          try dsimp only at h
          injection h with h'
          subst h'
          rw [hasType_addTrace, hasType_setObjs_self]
      · rw [if_neg hi] at h
        by_cases hf : pyFalsyId (some i) = true
        · rw [if_pos hf] at h
          cases hG : generateId (touchObjs st t) t with
          | mk r st₂ =>
            rw [hG] at h
            try dsimp only at h
            injection h with h'
            subst h'
            rw [hasType_addTrace, hasType_setObjs_self]
        · rw [if_neg hf] at h
          try dsimp only at h
          injection h with h'
          subst h'
          rw [hasType_addTrace, hasType_setObjs_self]

/-- C3 (amended) witness: a truthy load of an already-present type is a
no-op, and the first store marks the type as loaded. -/
theorem c3_amended_loaded_when_first_stored_witness :
    loadTypeDefinition envC5 1 userEmptyState "user" (some (.int 3)) =
      .ok userEmptyState ∧
    hasType firstStoreState "user" = true :=
  ⟨c3_amended_loaded_when_first_stored.1 0 envC5 userEmptyState "user"
      (.int 3) rfl rfl,
   c3_amended_loaded_when_first_stored.2 initialState (.obj []) "user" none
      firstStoreState rfl⟩

/-- C8 (amended): for a reference token whose type name carries no trailing
`s` (so that `by_id`'s singularization is the identity), with the type's
collection present and the id stored, resolving through the core yields
exactly the attribute walk over the object that `by_id` returns. -/
theorem c8_amended_resolve_matches_by_id (ltdf : LoadFn) (env : ScenarioEnv)
    (st : ScenarioState) (ref : Val) (t : String) (i : PyId)
    (attrs : List String) (v : Val)
    (hp : env.refHandler.parse ref = .ok (t, i, attrs))
    (hs : getTypeName t = t)
    (ht : hasType st t = true)
    (hv : alistLookup (getObjs st t) i = some v) :
    resolveReferenceWith ltdf env st ref =
      (walkAttrs v attrs).map (fun r => (r, st)) ∧
    byId st t i = .ok (some v) := by
  constructor
  · unfold resolveReferenceWith
    rw [hp]
    simp only [bind, Except.bind, pure, Except.pure, ht, if_true]
    rw [touchObjs_of_hasType st t ht, hv]
    cases hw : walkAttrs v attrs <;> simp [hw, Except.map, pure, Except.pure]
  · simp [byId, hs, ht, hv]

/-- C8 (amended) witness: resolving `$team_1` on a loaded `team` collection
agrees with `by_id("team", 1)`. -/
theorem c8_amended_resolve_matches_by_id_witness :
    resolveReferenceWith ltdfNull envC2 teamState (.str "$team_1") =
      .ok (.obj [("tname", .str "T")], teamState) ∧
    byId teamState "team" (.int 1) = .ok (some (.obj [("tname", .str "T")])) := by
  have h := c8_amended_resolve_matches_by_id ltdfNull envC2 teamState
    (.str "$team_1") "team" (.int 1) [] (.obj [("tname", .str "T")])
    rfl rfl rfl rfl
  exact ⟨h.1, h.2⟩

/-- C6 witness: with no registered handlers the body of `_load_type` raises
the already-categorized engine error, which passes through unwrapped. -/
theorem c6_error_propagation_witness :
    loadTypeBodyWith ltdfNull envEmpty 1 "user" (.dict []) initialState =
      .error (.scenarious "Invalid type name user") ∧
    loadTypeWith ltdfNull envEmpty 1 "user" (.dict []) initialState =
      .error (wrapLoadErr "user" (.scenarious "Invalid type name user")) :=
  ⟨rfl, (c6_error_propagation "user").2.2.2.2.1 ltdfNull envEmpty 1
    (.dict []) initialState (.scenarious "Invalid type name user") rfl⟩

end Scenarious
